import Mathlib

/-!
# DocuLink API — verification of the audit chain, signing, OTP and session layer

Shallow embedding of the relevant services of the `doculink-api` repository:
the hash-linked audit log (`createAuditLog` / `verifyAuditLogChain`), document
integrity validation (`validatePdfIntegrity`), the signing commit and PAdES
finalization, OTP issue/verify, refresh-token rotation and the plan /
subscription gates.  Machine arithmetic is `Nat` with explicit reduction
modulo `2 ^ 32`; SHA-256 is implemented concretely so that every hash the
services compute is executable.
-/

namespace DocuLink

/-! ## SHA-256 (`crypto.createHash('sha256')`), over byte lists with Nat words -/

/-- Reduce to a 32-bit word, the wrapping arithmetic SHA-256 uses. -/
def word32 (n : Nat) : Nat := n % 4294967296

/-- Right-rotation of a 32-bit word by `n` places. -/
def rotr32 (x n : Nat) : Nat := word32 ((x >>> n) ||| (x <<< (32 - n)))

def bsig0 (x : Nat) : Nat := rotr32 x 2 ^^^ rotr32 x 13 ^^^ rotr32 x 22
def bsig1 (x : Nat) : Nat := rotr32 x 6 ^^^ rotr32 x 11 ^^^ rotr32 x 25
def ssig0 (x : Nat) : Nat := rotr32 x 7 ^^^ rotr32 x 18 ^^^ (x >>> 3)
def ssig1 (x : Nat) : Nat := rotr32 x 17 ^^^ rotr32 x 19 ^^^ (x >>> 10)
def chFun (x y z : Nat) : Nat := (x &&& y) ^^^ ((x ^^^ 4294967295) &&& z)
def majFun (x y z : Nat) : Nat := (x &&& y) ^^^ (x &&& z) ^^^ (y &&& z)

/-- The 64 SHA-256 round constants (FIPS 180-4), written in decimal. -/
def roundConsts : List Nat :=
  [1116352408, 1899447441, 3049323471, 3921009573, 961987163,
   1508970993, 2453635748, 2870763221, 3624381080, 310598401,
   607225278, 1426881987, 1925078388, 2162078206, 2614888103,
   3248222580, 3835390401, 4022224774, 264347078, 604807628,
   770255983, 1249150122, 1555081692, 1996064986, 2554220882,
   2821834349, 2952996808, 3210313671, 3336571891, 3584528711,
   113926993, 338241895, 666307205, 773529912, 1294757372,
   1396182291, 1695183700, 1986661051, 2177026350, 2456956037,
   2730485921, 2820302411, 3259730800, 3345764771, 3516065817,
   3600352804, 4094571909, 275423344, 430227734, 506948616,
   659060556, 883997877, 958139571, 1322822218, 1537002063,
   1747873779, 1955562222, 2024104815, 2227730452, 2361852424,
   2428436474, 2756734187, 3204031479, 3329325298]

/-- The eight initial hash values, written in decimal. -/
def initHash : List Nat :=
  [1779033703, 3144134277, 1013904242, 2773480762,
   1359893119, 2600822924, 528734635, 1541459225]

/-- Merkle–Damgård padding: `0x80`, zeros, then the 64-bit big-endian bit length. -/
def padMessage (ms : List Nat) : List Nat :=
  let L := ms.length
  let zeros := (64 - (L + 9) % 64) % 64
  ms ++ [128] ++ List.replicate zeros 0
     ++ (List.range 8).map (fun i => ((L * 8) >>> (8 * (7 - i))) % 256)

/-- Big-endian packing of bytes into 32-bit words. -/
def bytesToWords : List Nat → List Nat
  | b0 :: b1 :: b2 :: b3 :: rest =>
      (((b0 * 256 + b1) * 256 + b2) * 256 + b3) :: bytesToWords rest
  | _ => []

/-- One step of the message-schedule extension. -/
def nextScheduleWord (acc : List Nat) : Nat :=
  let n := acc.length
  word32 (ssig1 (acc.getD (n - 2) 0) + acc.getD (n - 7) 0
          + ssig0 (acc.getD (n - 15) 0) + acc.getD (n - 16) 0)

/-- Extend the 16 block words to the 64-entry schedule. -/
def schedule (ws : List Nat) : List Nat :=
  (List.range 48).foldl (fun acc _ => acc ++ [nextScheduleWord acc]) ws

/-- One compression round on the state `[a,b,c,d,e,f,g,h]`. -/
def compressRound (st : List Nat) (kw : Nat × Nat) : List Nat :=
  match st with
  | [a, b, c, d, e, f, g, h] =>
      let t1 := word32 (h + bsig1 e + chFun e f g + kw.1 + kw.2)
      let t2 := word32 (bsig0 a + majFun a b c)
      [word32 (t1 + t2), a, b, c, word32 (d + t1), e, f, g]
  | other => other

/-- Compress one 64-byte block into the running hash state. -/
def compressBlock (hs : List Nat) (block : List Nat) : List Nat :=
  let ws := schedule (bytesToWords block)
  let fin := (roundConsts.zip ws).foldl compressRound hs
  (hs.zip fin).map (fun p => word32 (p.1 + p.2))

/-- Compress `n` successive 64-byte blocks of `bytes` into the state. -/
def sha256Blocks : Nat → List Nat → List Nat → List Nat
  | 0, hs, _ => hs
  | n + 1, hs, bytes => sha256Blocks n (compressBlock hs (bytes.take 64)) (bytes.drop 64)

/-- SHA-256 digest of a byte list, as 32 bytes. -/
def sha256Bytes (ms : List Nat) : List Nat :=
  let padded := padMessage ms
  let hs := sha256Blocks (padded.length / 64) initHash padded
  hs.foldr (fun w acc => (List.range 4).map (fun i => (w >>> (8 * (3 - i))) % 256) ++ acc) []

def hexDigit (n : Nat) : Char := "0123456789abcdef".toList.getD n '0'

def byteHex (b : Nat) : String := String.mk [hexDigit (b / 16), hexDigit (b % 16)]

/-- Lowercase hex rendering, as Node's `.digest('hex')`. -/
def toHex (bs : List Nat) : String := String.join (bs.map byteHex)

/-- `crypto.createHash('sha256').update(buffer).digest('hex')`. -/
def sha256Hex (bs : List Nat) : String := toHex (sha256Bytes bs)

/-- Bytes of an ASCII string. -/
def strBytes (s : String) : List Nat := s.toList.map Char.toNat

/-- SHA-256 hex digest of an ASCII string. -/
def sha256HexStr (s : String) : String := sha256Hex (strBytes s)

/-! ## JSON serialization (JSON.stringify on the objects the services hash)

All payload values appearing in this code base are strings, so a payload is a
list of key/value string pairs.  `JSON.stringify` omits object keys bound to
`undefined`; a key read back from a nullable DB column is `null` and is
serialized as `null`. -/

/-- A JSON string literal (no escaping is needed for the ASCII data involved). -/
def jstr (s : String) : String := "\"" ++ s ++ "\""

/-- One `"key":"value"` member. -/
def jfield (k v : String) : String := jstr k ++ ":" ++ jstr v

/-- A `"key":v` member where `v` is a nullable column value. -/
def jfieldOpt (k : String) (v : Option String) : String :=
  jstr k ++ ":" ++ (match v with | some s => jstr s | none => "null")

/-- Wrap members in braces, comma separated. -/
def jobj (fields : List String) : String :=
  "\x7b" ++ String.intercalate "," fields ++ "\x7d"

/-! ## Audit chain (`createAuditLog` in document.service.js, `verifyAuditLogChain`) -/

/-- The `logData` argument of `createAuditLog`.  `none` models a JS field that
is `undefined` (not passed by the caller). -/
structure AuditInput where
  tenantId : String
  actorKind : String
  actorId : Option String := none
  entityType : String
  entityId : String
  action : String
  ip : Option String := none
  userAgent : Option String := none
  payload : List (String × String) := []
  deriving DecidableEq

/-- A persisted `AuditLog` row.  `rowId` models the generated primary key and
`createdAt` the ISO-8601 timestamp the ORM assigns at insertion. -/
structure AuditEvent where
  rowId : Nat
  tenantId : String
  actorKind : String
  actorId : Option String
  entityType : String
  entityId : String
  action : String
  ip : Option String
  userAgent : Option String
  payloadJson : List (String × String)
  prevEventHash : String
  eventHash : String
  createdAt : String
  deriving DecidableEq

/-- Byte-wise lexicographic comparison; on ISO-8601 timestamps this is the
chronological order the SQL `ORDER BY createdAt` uses. -/
def lexLe : List Nat → List Nat → Bool
  | [], _ => true
  | _ :: _, [] => false
  | a :: as, b :: bs => if a < b then true else if b < a then false else lexLe as bs

def isoLe (a b : String) : Bool := lexLe (strBytes a) (strBytes b)

/-- Scan for the row with the greatest `createdAt`; on ties the later-inserted
row wins (the SQL order among equal timestamps is not specified). -/
def pickLaterEvent : Option AuditEvent → AuditEvent → Option AuditEvent
  | none, e => some e
  | some b, e => if isoLe b.createdAt e.createdAt then some e else some b

/-- `AuditLog.findOne({ where: { entityId }, order: createdAt DESC })`: the
latest prior event for `entityId` — filtered on `entityId` alone, with no
condition on `entityType`. -/
def lastEventFor (st : List AuditEvent) (entityId : String) : Option AuditEvent :=
  (st.filter (fun e => e.entityId == entityId)).foldl pickLaterEvent none

/-- `SHA256_hex("genesis_block_for_entity")`, the chain seed. -/
def genesisHash : String := sha256HexStr "genesis_block_for_entity"

/-- `JSON.stringify(payloadToHash)` as built inside `createAuditLog`: the object
literal `{actorKind, actorId, entityType, entityId, action, ip, userAgent,
...payload}` with keys in insertion order; keys bound to `undefined` are
omitted from the output. -/
def payloadToHashJsonAppend (e : AuditInput) : String :=
  jobj ([jfield "actorKind" e.actorKind]
    ++ (match e.actorId with | some a => [jfield "actorId" a] | none => [])
    ++ [jfield "entityType" e.entityType, jfield "entityId" e.entityId,
        jfield "action" e.action]
    ++ (match e.ip with | some s => [jfield "ip" s] | none => [])
    ++ (match e.userAgent with | some s => [jfield "userAgent" s] | none => [])
    ++ e.payload.map (fun p => jfield p.1 p.2))

/-- The row `createAuditLog` inserts.  `hashNowIso` is the
`new Date().toISOString()` read when the payload string is serialized;
`createNowIso` is the `createdAt` the ORM assigns when the row is inserted —
a second, independent clock read. -/
def appendedRow (st : List AuditEvent) (e : AuditInput)
    (hashNowIso createNowIso : String) (rowId : Nat) : AuditEvent :=
  let prevEventHash := match lastEventFor st e.entityId with
    | some ev => ev.eventHash
    | none => genesisHash
  let payloadString := payloadToHashJsonAppend e ++ hashNowIso
  let eventHash := sha256HexStr (prevEventHash ++ payloadString)
  { rowId, tenantId := e.tenantId, actorKind := e.actorKind, actorId := e.actorId,
    entityType := e.entityType, entityId := e.entityId, action := e.action,
    ip := e.ip, userAgent := e.userAgent, payloadJson := e.payload,
    prevEventHash, eventHash, createdAt := createNowIso }

/-- `createAuditLog(logData, transaction)` from document.service.js: look up the
latest prior event for the entity, hash, and insert the new row. -/
def createAuditLog (st : List AuditEvent) (e : AuditInput)
    (hashNowIso createNowIso : String) (rowId : Nat) : List AuditEvent :=
  st ++ [appendedRow st e hashNowIso createNowIso rowId]

/-- The result object of `verifyAuditLogChain`. -/
inductive ChainResult where
  | valid (count : Nat)
  | broken (brokenEventId : Nat) (reason : String)
  deriving DecidableEq

/-- The verifier's recomputation of a stored row's hash: it destructures the
row (so absent nullable columns come back as `null`, with every key present)
and appends `new Date(createdAt).toISOString()`. -/
def recomputedHash (e : AuditEvent) : String :=
  let payloadToHash := jobj ([jfield "actorKind" e.actorKind,
    jfieldOpt "actorId" e.actorId,
    jfield "entityType" e.entityType, jfield "entityId" e.entityId,
    jfield "action" e.action, jfieldOpt "ip" e.ip,
    jfieldOpt "userAgent" e.userAgent]
    ++ e.payloadJson.map (fun p => jfield p.1 p.2))
  sha256HexStr (e.prevEventHash ++ (payloadToHash ++ e.createdAt))

/-- The verification walk: for index 0 only the hash recomputation; for i > 0
first the link check against the previous element, then the recomputation. -/
def walkChain (prev : Option AuditEvent) (logs : List AuditEvent) (count : Nat) :
    ChainResult :=
  match logs with
  | [] => .valid count
  | e :: rest =>
    match prev with
    | some p =>
      if e.prevEventHash == p.eventHash then
        if recomputedHash e == e.eventHash then walkChain (some e) rest (count + 1)
        else .broken e.rowId "Hash Mismatch (Tampering detected)"
      else .broken e.rowId "Broken Link (prevHash mismatch)"
    | none =>
      if recomputedHash e == e.eventHash then walkChain (some e) rest (count + 1)
      else .broken e.rowId "Hash Mismatch (Tampering detected)"

/-- Stable insertion keeping ascending `createdAt` order. -/
def insertByCreatedAt (e : AuditEvent) : List AuditEvent → List AuditEvent
  | [] => [e]
  | x :: xs => if isoLe x.createdAt e.createdAt then x :: insertByCreatedAt e xs
               else e :: x :: xs

/-- `ORDER BY createdAt ASC` (stable on the insertion order for ties). -/
def sortByCreatedAt (l : List AuditEvent) : List AuditEvent :=
  l.foldl (fun acc e => insertByCreatedAt e acc) []

/-- A `Signer` row (the fields the verified services read). -/
structure SignerRow where
  id : String
  documentId : String
  name : String
  email : Option String := none
  phoneWhatsE164 : Option String := none
  authChannels : Option (List String) := none
  status : String := "PENDING"
  signedAt : Option String := none
  signatureHash : Option String := none
  deriving DecidableEq

/-- `verifyAuditLogChain(docId)` from part_007: collect the events with
`(entityType=DOCUMENT, entityId=docId)` or `(entityType=SIGNER, entityId` among
the signers of the document`)`, order by `createdAt` ascending, then walk. -/
def verifyAuditLogChain (signers : List SignerRow) (audit : List AuditEvent)
    (docId : String) : ChainResult :=
  let signerIds := (signers.filter (fun s => s.documentId == docId)).map (fun s => s.id)
  let logs := sortByCreatedAt (audit.filter (fun e =>
    (e.entityType == "DOCUMENT" && e.entityId == docId)
    || (e.entityType == "SIGNER" && signerIds.contains e.entityId)))
  match logs with
  | [] => .valid 0
  | _ => walkChain none logs 0

/-! ### Concrete audit traces for the C1 and C2 checks -/

/-- The upload event of a document "D" (every nullable field supplied). -/
def c1UploadInput : AuditInput :=
  { tenantId := "T", actorKind := "USER", actorId := some "U",
    entityType := "DOCUMENT", entityId := "D", action := "STORAGE_UPLOADED",
    ip := some "SYSTEM", userAgent := some "SYSTEM",
    payload := [("fileName", "contract.pdf"), ("sha256", "ab12")] }

/-- The invite event of signer "S1" on document "D". -/
def c1InviteInput : AuditInput :=
  { tenantId := "T", actorKind := "USER", actorId := some "U",
    entityType := "SIGNER", entityId := "S1", action := "INVITED",
    ip := some "SYSTEM", userAgent := some "SYSTEM",
    payload := [("documentId", "D"), ("recipient", "s1@x.com")] }

def c1T1 : String := "2025-01-01T10:00:00.000Z"

def c1T2 : String := "2025-01-01T10:00:01.000Z"

/-- Two honest appends — for each, the serialized instant and the persisted
`createdAt` coincide, and no row is afterwards modified, reordered or deleted. -/
def c1Audit : List AuditEvent :=
  createAuditLog (createAuditLog [] c1UploadInput c1T1 c1T1 1) c1InviteInput c1T2 c1T2 2

def c1Signers : List SignerRow := [{ id := "S1", documentId := "D", name := "Alice" }]

/-- A document event whose hash-time clock read and ORM `createdAt` differ by
one millisecond (two separate `new Date()` calls). -/
def c2Input : AuditInput :=
  { tenantId := "T", actorKind := "USER", actorId := some "U",
    entityType := "DOCUMENT", entityId := "D", action := "STATUS_CHANGED",
    ip := some "1.2.3.4", userAgent := some "UA",
    payload := [("newStatus", "CANCELLED")] }

def c2Audit : List AuditEvent :=
  createAuditLog [] c2Input "2025-01-01T10:00:00.000Z" "2025-01-01T10:00:00.001Z" 1

/-! ## Documents and public integrity validation (`validatePdfIntegrity`) -/

/-- A `User` row (the fields the verified services read). -/
structure UserRow where
  id : String
  tenantId : String
  name : String
  email : String
  role : String := "USER"
  deriving DecidableEq

/-- A `Document` row. -/
structure DocumentRow where
  id : String
  tenantId : String
  ownerId : String
  title : String
  storageKey : Option String := none
  sha256 : Option String := none
  status : String := "DRAFT"
  updatedAt : String := ""
  deriving DecidableEq

/-- The document data returned on a successful validation. -/
structure ValidatedDocument where
  title : String
  signedAt : String
  ownerName : String
  signers : List SignerRow
  deriving DecidableEq

/-- The result object of `validatePdfIntegrity`. -/
inductive ValidateResult where
  | invalid (hashCalculated : String) (reason : String)
  | valid (hashCalculated : String) (doc : ValidatedDocument)
  deriving DecidableEq

/-- `validatePdfIntegrity(fileBuffer)` from part_007: hash the received bytes,
`findOne` the document carrying that hash (the first matching row in table
order — the query has no ORDER BY), then the strict rule: valid only if the
found document has status SIGNED.  The function only reads; no row is
written. -/
def validatePdfIntegrity (docs : List DocumentRow) (users : List UserRow)
    (signers : List SignerRow) (fileBuffer : List Nat) : ValidateResult :=
  let hash := sha256Hex fileBuffer
  match (docs.filter (fun d => d.sha256 == some hash)).head? with
  | none => .invalid hash "NOT_FOUND"
  | some doc =>
    if doc.status != "SIGNED" then .invalid hash "NOT_SIGNED"
    else
      .valid hash
        { title := doc.title, signedAt := doc.updatedAt,
          ownerName := (match users.find? (fun u => u.id == doc.ownerId) with
            | some u => u.name | none => ""),
          signers := signers.filter (fun s => s.documentId == doc.id) }

/-! ## Signing commit and PAdES finalization (status-relevant core)

`commitSignature` from signer.service.js and `finalizeWithPades` from
part_007, restricted to the document/signer rows they update.  Certificate
insertion, audit entries and the notification fan-out do not touch any
status field and are not needed by the claims below. -/

/-- The mutable rows of a signing workflow: one document and the signer table. -/
structure SignCommitState where
  doc : DocumentRow
  signers : List SignerRow
  deriving DecidableEq

/-- The storage-key rewrite `storageKey.replace(/(\.[\w\d_-]+)$/i, suffix + "$1")`:
insert the suffix before the final extension. -/
def insertBeforeExt (suffix : String) (key : String) : String :=
  let parts := key.splitOn "."
  match parts with
  | [] => key
  | [_] => key
  | _ => String.intercalate "." parts.dropLast ++ suffix ++ "." ++ (parts.getLast?).getD ""

/-- Step 2 of the commit:
`sha256Hex(document.sha256 + signer.id + timestampISO + clientFingerprint)`
(a null document hash concatenates as the string "null", as in JS). -/
def commitSignatureHash (st : SignCommitState)
    (signerId timestampISO clientFingerprint : String) : String :=
  sha256HexStr ((match st.doc.sha256 with | some s => s | none => "null")
    ++ signerId ++ timestampISO ++ clientFingerprint)

/-- Step 4 of the commit: the signer table after the committing signer is
marked SIGNED with its signature metadata. -/
def commitUpdatedSigners (st : SignCommitState)
    (signerId timestampISO clientFingerprint nowIso : String) : List SignerRow :=
  st.signers.map (fun s =>
    if s.id == signerId then
      { s with status := "SIGNED", signedAt := some nowIso,
               signatureHash := some (commitSignatureHash st signerId
                 timestampISO clientFingerprint) }
    else s)

/-- `commitSignature(document, signer, clientFingerprint, ...)`: mark the signer
SIGNED, re-read all signers of the document, and only when every one of them is
SIGNED stamp the PDF, move the storage key to the `-signed` variant, store the
hash of the stamped bytes and set the document status to SIGNED.  The stamped
bytes come from the external PDF collaborator and are passed in.  The second
component is the `allSigned` flag (`isComplete` in the response). -/
def commitSignature (st : SignCommitState) (signerId : String)
    (timestampISO clientFingerprint nowIso : String)
    (stampedPdf : List Nat) : SignCommitState × Bool :=
  let signers := commitUpdatedSigners st signerId timestampISO clientFingerprint nowIso
  let signersInDoc := signers.filter (fun s => s.documentId == st.doc.id)
  let allSigned := signersInDoc.all (fun s => s.status == "SIGNED")
  if allSigned then
    ({ doc := { st.doc with
         status := "SIGNED",
         storageKey := st.doc.storageKey.map (insertBeforeExt "-signed"),
         sha256 := some (sha256Hex stampedPdf) },
       signers := signers }, true)
  else ({ st with signers := signers }, false)

/-- `finalizeWithPades(docId, user)` from part_007: apply the PAdES stamp to the
current bytes, move the storage key to the `-pades` variant, store the new hash
and force the status to SIGNED (`if (document.status !== 'SIGNED')
document.status = 'SIGNED'`) — without inspecting any signer status. -/
def finalizeWithPades (st : SignCommitState) (padesSignedPdf : List Nat) :
    SignCommitState :=
  { st with doc := { st.doc with
      storageKey := st.doc.storageKey.map (insertBeforeExt "-pades"),
      sha256 := some (sha256Hex padesSignedPdf),
      status := "SIGNED" } }

/-- Spec invariant 3: a SIGNED document has only SIGNED signers. -/
def signedInvariant (st : SignCommitState) : Prop :=
  st.doc.status = "SIGNED" →
    ∀ s ∈ st.signers, s.documentId = st.doc.id → s.status = "SIGNED"

/-! ## OTP issue and verification (`startOtpVerification`, `verifyOtp`) -/

/-- An `OtpCode` row. -/
structure OtpCodeRow where
  rowId : Nat
  recipient : String
  channel : String
  codeHash : String
  expiresAtMs : Nat
  context : String
  createdAtMs : Nat
  deriving DecidableEq

/-- Model of the external bcrypt collaborator: the stored hash is an opaque
deterministic tag of the input, and `bcrypt.compare` accepts exactly the input
the hash was minted from.  (The real salt only makes two mints of the same
input differ as strings; none of the verified code relies on that.) -/
def bcryptHash (raw : String) : String := "bcrypt$" ++ raw

/-- `bcrypt.compare(raw, hash)`. -/
def bcryptCompare (raw hash : String) : Bool := hash == bcryptHash raw

/-- `startOtpVerification(signer, req)`: one minted code, hashed once; one
`OtpCode` row per configured channel (`signer.authChannels || ['EMAIL']`),
each carrying the same `codeHash`; channels without a recipient are skipped.
Row ids are consecutive from `firstRowId`. -/
def startOtpVerification (signer : SignerRow) (otps : List OtpCodeRow)
    (otp : String) (nowMs : Nat) (firstRowId : Nat) : List OtpCodeRow :=
  let codeHash := bcryptHash otp
  let expiresAt := nowMs + 10 * 60 * 1000
  let channels := match signer.authChannels with | some cs => cs | none => ["EMAIL"]
  otps ++ channels.foldl (fun acc channel =>
    match (if channel == "EMAIL" then signer.email else signer.phoneWhatsE164) with
    | none => acc
    | some r =>
        acc ++ [{ rowId := firstRowId + acc.length, recipient := r,
                  channel := channel, codeHash := codeHash,
                  expiresAtMs := expiresAt, context := "SIGNING",
                  createdAtMs := nowMs }]) []

/-- The outcome of `verifyOtp`: success, the thrown expired/not-found error
("Código OTP inválido ou expirado.") or the wrong-code error
("Código OTP inválido."). -/
inductive OtpResult where
  | verified
  | expiredOrNotFound
  | incorrectCode
  deriving DecidableEq

/-- Latest-`createdAt` scan (ORDER BY createdAt DESC, ties to the later row). -/
def pickLaterOtp : Option OtpCodeRow → OtpCodeRow → Option OtpCodeRow
  | none, e => some e
  | some b, e => if b.createdAtMs ≤ e.createdAtMs then some e else some b

/-- The `where` clause of the `findOne` in `verifyOtp`: recipient among the
signer address list, context SIGNING. -/
def matchesSignerOtp (signer : SignerRow) (r : OtpCodeRow) : Bool :=
  ([signer.email, signer.phoneWhatsE164].filterMap id).contains r.recipient
    && r.context == "SIGNING"

/-- The OTP_FAILED audit entry both failure paths of `verifyOtp` append. -/
def otpFailedEntry (tenantId : String) (signer : SignerRow)
    (ip userAgent : Option String) (reason : String) : AuditInput :=
  { tenantId := tenantId, actorKind := "SIGNER", actorId := some signer.id,
    entityType := "OTP", entityId := signer.id, action := "OTP_FAILED",
    ip := ip, userAgent := userAgent, payload := [("reason", reason)] }

/-- The OTP_VERIFIED audit entry of the success path. -/
def otpVerifiedEntry (tenantId : String) (signer : SignerRow)
    (ip userAgent : Option String) : AuditInput :=
  { tenantId := tenantId, actorKind := "SIGNER", actorId := some signer.id,
    entityType := "OTP", entityId := signer.id, action := "OTP_VERIFIED",
    ip := ip, userAgent := userAgent }

/-- `verifyOtp(signer, otp, req)`: locate the most recent SIGNING `OtpCode`
addressed to the signer; absent or expired rows and hash mismatches throw
(appending OTP_FAILED and leaving the table unchanged); on success append
OTP_VERIFIED and destroy the row.  Returns (outcome, new OtpCode table,
audit entries appended). -/
def verifyOtp (signer : SignerRow) (otps : List OtpCodeRow) (otp : String)
    (nowMs : Nat) (tenantId : String) (ip userAgent : Option String) :
    OtpResult × List OtpCodeRow × List AuditInput :=
  let otpRecord := (otps.filter (matchesSignerOtp signer)).foldl pickLaterOtp none
  match otpRecord with
  | none => (.expiredOrNotFound, otps,
      [otpFailedEntry tenantId signer ip userAgent "Expired or Not Found"])
  | some r =>
    if r.expiresAtMs < nowMs then
      (.expiredOrNotFound, otps,
        [otpFailedEntry tenantId signer ip userAgent "Expired or Not Found"])
    else if !(bcryptCompare otp r.codeHash) then
      (.incorrectCode, otps,
        [otpFailedEntry tenantId signer ip userAgent "Incorrect Code"])
    else
      (.verified, otps.filter (fun x => x.rowId != r.rowId),
        [otpVerifiedEntry tenantId signer ip userAgent])

/-! ## The two 6-digit OTP mints (C9) -/

/-- The value minted by `crypto.randomInt(100000, 999999)` in
`startOtpVerification` and in `requestPasswordReset`.  Node draws a uniform
integer from the half-open interval `[min, max)` — the upper bound is
exclusive; the randomness is the `Fin` argument. -/
def signingOtpValue (r : Fin 899999) : Nat := 100000 + r.val

/-- The minted decimal string. -/
def mintSigningOtp (r : Fin 899999) : String := toString (signingOtpValue r)

/-- The value minted by `generateSixDigitOtp` in part_013:
`crypto.randomBytes(4).readUInt32BE(0) % 900000 + 100000`. -/
def sixDigitOtpValue (randomValue : Nat) : Nat :=
  randomValue % 4294967296 % 900000 + 100000

/-- The minted decimal string of part_013. -/
def generateSixDigitOtp (randomValue : Nat) : String :=
  toString (sixDigitOtpValue randomValue)

/-- How many 32-bit random draws produce a given OTP value. -/
def sixDigitFiberCard (v : Nat) : Nat :=
  ((Finset.range 4294967296).filter (fun b => sixDigitOtpValue b = v)).card

/-! ## Sessions, refresh rotation and role re-resolution (part_015) -/

/-- A `Session` row. -/
structure SessionRow where
  rowId : Nat
  userId : String
  refreshTokenHash : String
  expiresAtMs : Nat
  deriving DecidableEq

/-- A `TenantMember` row. -/
structure TenantMemberRow where
  userId : Option String
  tenantId : String
  email : String
  role : String
  status : String
  deriving DecidableEq

/-- The payload of a refresh JWT: `jwt.sign({ userId, tenantId }, ...)`; the
issue instant `iatMs` is embedded by `jwt.sign` and distinguishes
otherwise-equal payloads. -/
structure RefreshToken where
  userId : String
  tenantId : Option String
  iatMs : Nat
  deriving DecidableEq

/-- The serialized JWT string whose bcrypt hash is stored as
`Session.refreshTokenHash`. -/
def encodeRefreshToken (t : RefreshToken) : String :=
  "jwt." ++ t.userId ++ "."
    ++ (match t.tenantId with | some s => s | none => "") ++ "."
    ++ toString t.iatMs

/-- The pair `generateTokens(user, activeTenantId, activeRole)` returns: the
access JWT carries `{userId, tenantId: activeTenantId, role: activeRole}`, the
refresh JWT carries `{userId, tenantId: activeTenantId}`. -/
structure TokenPair where
  accessUserId : String
  accessTenantId : String
  accessRole : String
  refresh : RefreshToken
  deriving DecidableEq

def generateTokens (user : UserRow) (activeTenantId activeRole : String)
    (nowMs : Nat) : TokenPair :=
  { accessUserId := user.id, accessTenantId := activeTenantId,
    accessRole := activeRole,
    refresh := { userId := user.id, tenantId := some activeTenantId, iatMs := nowMs } }

/-- 7 days, the refresh lifetime. -/
def refreshLifetimeMs : Nat := 7 * 24 * 60 * 60 * 1000

/-- The tables `handleRefreshToken` reads and writes. -/
structure AuthDb where
  users : List UserRow
  sessions : List SessionRow
  members : List TenantMemberRow
  deriving DecidableEq

/-- The outcome of `handleRefreshToken`: a fresh pair plus the updated tables,
or the single catch-all error "Sessão expirada ou inválida.". -/
inductive RefreshResult where
  | ok (pair : TokenPair) (db : AuthDb)
  | invalid
  deriving DecidableEq

/-- `handleRefreshToken(refreshTokenFromRequest)` from part_015: verify the JWT
(expired tokens throw), enumerate the Sessions of the embedded userId, find the
one whose bcrypt hash matches, destroy it (rotation), keep the tenantId carried
by the old token (`decoded.tenantId || user.tenantId`), re-resolve the role —
personal tenant gives ADMIN or SUPER_ADMIN, otherwise the TenantMember row for
(user, tenant) is looked up with no condition on its status — then mint and
persist a fresh pair. -/
def handleRefreshToken (db : AuthDb) (presented : RefreshToken)
    (nowMs newRowId : Nat) : RefreshResult :=
  if presented.iatMs + refreshLifetimeMs ≤ nowMs then .invalid
  else
    let sessions := db.sessions.filter (fun s => s.userId == presented.userId)
    if sessions.isEmpty then .invalid
    else
      match sessions.find? (fun s =>
          bcryptCompare (encodeRefreshToken presented) s.refreshTokenHash) with
      | none => .invalid
      | some sessionRecord =>
        match db.users.find? (fun u => u.id == presented.userId) with
        | none => .invalid
        | some user =>
          let sessionsAfter := db.sessions.filter
            (fun s => s.rowId != sessionRecord.rowId)
          let currentTenantId := match presented.tenantId with
            | some t => t
            | none => user.tenantId
          let role := if currentTenantId == user.tenantId then
              (if user.role == "SUPER_ADMIN" then "SUPER_ADMIN" else "ADMIN")
            else match db.members.find? (fun m =>
                m.userId == some user.id && m.tenantId == currentTenantId) with
              | some m => m.role
              | none => "USER"
          let pair := generateTokens user currentTenantId role nowMs
          let newSession : SessionRow :=
            { rowId := newRowId, userId := user.id,
              refreshTokenHash := bcryptHash (encodeRefreshToken pair.refresh),
              expiresAtMs := nowMs + refreshLifetimeMs }
          .ok pair { db with sessions := sessionsAfter ++ [newSession] }

/-- Modelled from the spec: the role the claim says a refresh re-resolves —
per §4.5, outside the personal tenant the role comes from the TenantMember row
with status ACTIVE; `none` when no such authorization exists.  (Comparison
definition for C7; the code-side resolution lives in `handleRefreshToken`.) -/
def roleClaimedBySpec (user : UserRow) (members : List TenantMemberRow)
    (tenantId : String) : Option String :=
  if tenantId = user.tenantId then
    some (if user.role = "SUPER_ADMIN" then "SUPER_ADMIN" else "ADMIN")
  else match members.find? (fun m => m.userId == some user.id
      && m.tenantId == tenantId && m.status == "ACTIVE") with
    | some m => some m.role
    | none => none

/-- Projection: the role carried by the access credential of a refresh result. -/
def refreshAccessRole : RefreshResult → Option String
  | .ok p _ => some p.accessRole
  | .invalid => none

/-- Projection: the tenant carried by the access credential of a refresh result. -/
def refreshAccessTenant : RefreshResult → Option String
  | .ok p _ => some p.accessTenantId
  | .invalid => none

/-! ## Plan and subscription gates (C6) -/

/-- A `Plan` row; `price` is the decimal the code reads through `parseFloat`. -/
structure PlanRow where
  slug : String
  price : ℚ
  userLimit : Nat
  documentLimit : Nat
  deriving DecidableEq

/-- A `Tenant` row with its included plan. -/
structure TenantRow where
  id : String
  plan : Option PlanRow
  subscriptionStatus : Option String
  deriving DecidableEq

/-- `tenant.subscriptionStatus && ['OVERDUE','CANCELED'].includes(...)`. -/
def subscriptionIrregular : Option String → Bool
  | some s => s == "OVERDUE" || s == "CANCELED"
  | none => false

/-- The gate prefix of `createDocumentAndHandleUpload` (part_007). -/
inductive UploadGate where
  | notFound
  | subscriptionIrregular
  | documentLimitReached
  | proceed
  deriving DecidableEq

/-- The validations `createDocumentAndHandleUpload` runs before its
transaction: tenant lookup; the subscription block only for paid plans
(`parseFloat(tenant.plan.price) > 0`); then the document limit. -/
def createDocumentUploadGate (tenant : Option TenantRow) (currentCount : Nat) :
    UploadGate :=
  match tenant with
  | none => .notFound
  | some t =>
    if (match t.plan with
        | some p => decide (0 < p.price) && subscriptionIrregular t.subscriptionStatus
        | none => false) then .subscriptionIrregular
    else match t.plan with
      | some p => if p.documentLimit ≤ currentCount then .documentLimitReached
                  else .proceed
      | none => .proceed

/-- The gate prefix of `inviteMember` (tenant.service.js). -/
inductive InviteGate where
  | notFound
  | subscriptionIrregular
  | userLimitReached
  | userNotRegistered
  | alreadyActiveMember
  | proceed
  deriving DecidableEq

/-- The validations `inviteMember` runs: tenant lookup; the subscription block
applied with no condition on the plan price; the user limit (ACTIVE users plus
non-DECLINED members); the invited email must belong to a registered user and
not to an already ACTIVE member. -/
def inviteMemberGate (tenant : Option TenantRow)
    (activeUserCount nonDeclinedMemberCount : Nat)
    (emailRegistered existingActiveMember : Bool) : InviteGate :=
  match tenant with
  | none => .notFound
  | some t =>
    if subscriptionIrregular t.subscriptionStatus then .subscriptionIrregular
    else
      if (match t.plan with
          | some p => decide (p.userLimit ≤ activeUserCount + nonDeclinedMemberCount)
          | none => false) then .userLimitReached
      else if !emailRegistered then .userNotRegistered
      else if existingActiveMember then .alreadyActiveMember
      else .proceed

/-! ## Concrete instances used by the claim checks -/

/-- A still PENDING signer of document "D". -/
def c3Signer : SignerRow :=
  { id := "S1", documentId := "D", name := "Alice", status := "PENDING" }

/-- A document "D" awaiting its single, still PENDING signer. -/
def c3State : SignCommitState :=
  { doc := { id := "D", tenantId := "T", ownerId := "U", title := "contract.pdf",
             storageKey := some "uploads/T/D.pdf", sha256 := some "ab12",
             status := "READY" },
    signers := [c3Signer] }

/-- Four PDF bytes ("%PDF") standing for a stamped artifact. -/
def pdfBytes : List Nat := [37, 80, 68, 70]

/-- A signer reachable over both EMAIL and WHATSAPP. -/
def c4Signer : SignerRow :=
  { id := "S1", documentId := "D", name := "Alice", email := some "s1@x.com",
    phoneWhatsE164 := some "5511999990000",
    authChannels := some ["EMAIL", "WHATSAPP"], status := "VIEWED" }

/-- The OtpCode table after `startOtpVerification` minted code 424242 for the
two-channel signer: two rows share one `codeHash`. -/
def c4Otps : List OtpCodeRow := startOtpVerification c4Signer [] "424242" 1000 1

/-- A signer reachable over EMAIL only. -/
def c4SoloSigner : SignerRow :=
  { id := "S2", documentId := "D", name := "Bob", email := some "s2@x.com",
    authChannels := some ["EMAIL"], status := "VIEWED" }

/-- The single-row OtpCode table for the one-channel signer. -/
def c4SoloOtps : List OtpCodeRow :=
  startOtpVerification c4SoloSigner [] "424242" 1000 1

def c5Token : RefreshToken := { userId := "u1", tenantId := some "T1", iatMs := 0 }

def c5User : UserRow :=
  { id := "u1", tenantId := "T1", name := "Ann", email := "a@x.com", role := "ADMIN" }

def c5Session : SessionRow :=
  { rowId := 1, userId := "u1",
    refreshTokenHash := bcryptHash (encodeRefreshToken c5Token),
    expiresAtMs := 700000000 }

def c5Db : AuthDb := { users := [c5User], sessions := [c5Session], members := [] }

def c5Pair : TokenPair := generateTokens c5User "T1" "ADMIN" 1000

def c5NewSession : SessionRow :=
  { rowId := 2, userId := "u1",
    refreshTokenHash := bcryptHash (encodeRefreshToken c5Pair.refresh),
    expiresAtMs := 1000 + refreshLifetimeMs }

def c5Db2 : AuthDb := { c5Db with sessions := [c5NewSession] }

/-- The pair a refresh executed at instant 0 — the very second of
`c5Token`'s own iat — mints: `jwt.sign` is deterministic, so its refresh
JWT is byte-identical to the presented one. -/
def c5ReplayPair : TokenPair := generateTokens c5User "T1" "ADMIN" 0

def c5ReplaySession : SessionRow :=
  { rowId := 2, userId := "u1",
    refreshTokenHash := bcryptHash (encodeRefreshToken c5ReplayPair.refresh),
    expiresAtMs := 0 + refreshLifetimeMs }

def c5ReplayDb2 : AuthDb := { c5Db with sessions := [c5ReplaySession] }

/-- The seeded free plan: price 0. -/
def gratuitoPlan : PlanRow :=
  { slug := "gratuito", price := 0, userLimit := 3, documentLimit := 3 }

/-- A free-plan tenant whose gateway status is OVERDUE. -/
def c6Tenant : TenantRow :=
  { id := "T", plan := some gratuitoPlan, subscriptionStatus := some "OVERDUE" }

def c7User : UserRow :=
  { id := "u1", tenantId := "P1", name := "Ann", email := "a@x.com", role := "USER" }

/-- A membership in tenant "T2" that is still PENDING (never accepted). -/
def c7Member : TenantMemberRow :=
  { userId := some "u1", tenantId := "T2", email := "a@x.com", role := "MANAGER",
    status := "PENDING" }

/-- A refresh credential carrying tenant "T2", not the personal tenant "P1". -/
def c7Token : RefreshToken := { userId := "u1", tenantId := some "T2", iatMs := 0 }

def c7Session : SessionRow :=
  { rowId := 1, userId := "u1",
    refreshTokenHash := bcryptHash (encodeRefreshToken c7Token),
    expiresAtMs := 700000000 }

def c7Db : AuthDb :=
  { users := [c7User], sessions := [c7Session], members := [c7Member] }

def c7Pair : TokenPair := generateTokens c7User "T2" "MANAGER" 1000

def c7NewSession : SessionRow :=
  { rowId := 2, userId := "u1",
    refreshTokenHash := bcryptHash (encodeRefreshToken c7Pair.refresh),
    expiresAtMs := 1000 + refreshLifetimeMs }

def c7Db2 : AuthDb := { c7Db with sessions := [c7NewSession] }

/-- A READY document carrying the same content hash as a SIGNED one (the same
bytes uploaded twice; `Document.sha256` has no uniqueness constraint). -/
def c8DocReady : DocumentRow :=
  { id := "D1", tenantId := "T", ownerId := "U", title := "contract.pdf",
    storageKey := some "uploads/T/D1.pdf", sha256 := some (sha256Hex pdfBytes),
    status := "READY", updatedAt := "2025-01-02T00:00:00.000Z" }

def c8DocSigned : DocumentRow :=
  { id := "D2", tenantId := "T", ownerId := "U", title := "contract.pdf",
    storageKey := some "uploads/T/D2-signed.pdf",
    sha256 := some (sha256Hex pdfBytes),
    status := "SIGNED", updatedAt := "2025-01-03T00:00:00.000Z" }

def c8Docs : List DocumentRow := [c8DocReady, c8DocSigned]

/-- A SIGNER-entity audit input for signer "S1". -/
def c10SignerIn : AuditInput :=
  { tenantId := "T", actorKind := "USER", actorId := some "U",
    entityType := "SIGNER", entityId := "S1", action := "INVITED",
    ip := some "SYSTEM", userAgent := some "SYSTEM",
    payload := [("documentId", "D"), ("recipient", "s1@x.com")] }

/-- An OTP-entity audit input for the same signer id "S1". -/
def c10OtpIn : AuditInput :=
  { tenantId := "T", actorKind := "SIGNER", actorId := some "S1",
    entityType := "OTP", entityId := "S1", action := "OTP_VERIFIED",
    ip := some "9.9.9.9", userAgent := some "UA" }

/-! # Theorems -/

/-- FIPS 180-4 test vector: sanity check of the SHA-256 embedding. -/
example : sha256HexStr "abc"
    = "ba7816bf8f01cfea414140de5dae2223b00361a396177a9cb410ff61f20015ad" := by
  decide

set_option maxRecDepth 100000 in
/-- C1: the claim fails on an untampered trail.  The failing input is the
honest two-event history of document "D" — its STORAGE_UPLOADED event followed
by the INVITED event of its signer "S1", each appended by `createAuditLog`
with coinciding clock reads and afterwards neither modified, reordered nor
deleted.  `verifyAuditLogChain` reports Broken Link at the second event instead
of `{isValid:true, count:2}`: the walk link-checks the merged document+signer
sequence, while appends chain per entityId, so the invite row correctly
carries the genesis hash of its own (signer) chain rather than the upload row
hash. -/
theorem claim_C1_divergence :
    verifyAuditLogChain c1Signers c1Audit "D"
      = .broken 2 "Broken Link (prevHash mismatch)"
    ∧ c1Audit = createAuditLog (createAuditLog [] c1UploadInput c1T1 c1T1 1)
        c1InviteInput c1T2 c1T2 2 :=
  ⟨by decide, rfl⟩

set_option maxRecDepth 100000 in
/-- C2: the hashed timestamp is a clock read taken before the insert, and the
persisted `createdAt` is a second, independent clock read; nothing makes them
the same instant.  At the failing input — a single honest append whose two
reads differ by one millisecond — recomputing the hash from the stored row
yields a different digest, so the verifier reports Hash Mismatch on an
untampered row. -/
theorem claim_C2_divergence :
    verifyAuditLogChain [] c2Audit "D"
      = .broken 1 "Hash Mismatch (Tampering detected)"
    ∧ c2Audit = createAuditLog [] c2Input
        "2025-01-01T10:00:00.000Z" "2025-01-01T10:00:00.001Z" 1 :=
  ⟨by decide, rfl⟩

/-- A later-wins scan started from `some` stays `some`. -/
theorem foldl_pickLaterEvent_isSome (l : List AuditEvent) (b : AuditEvent) :
    (l.foldl pickLaterEvent (some b)).isSome := by
  induction l generalizing b with
  | nil => rfl
  | cons x xs ih =>
    simp only [List.foldl_cons, pickLaterEvent]
    split
    · exact ih x
    · exact ih b

/-- If `lastEventFor` found nothing, the entity has no rows at all. -/
theorem filter_eq_nil_of_lastEventFor_none (st : List AuditEvent) (eid : String)
    (h : lastEventFor st eid = none) :
    st.filter (fun e => e.entityId == eid) = [] := by
  unfold lastEventFor at h
  cases hl : st.filter (fun e => e.entityId == eid) with
  | nil => rfl
  | cons x xs =>
    rw [hl] at h
    have hs := foldl_pickLaterEvent_isSome xs x
    simp only [List.foldl_cons, pickLaterEvent] at h
    rw [h] at hs
    exact absurd hs (by simp)

/-- C10: every audit append selects its predecessor by entityId alone, with no
condition on entityType.  Appending any two events for one entityId — for
example a SIGNER event and then an OTP event for the same signer id — links
the second to the first (and the first to the genesis hash), whatever their
entity types are: one entityId has exactly one chain across all entity
types. -/
theorem claim_C10_chain_by_entityId (st : List AuditEvent) (sIn oIn : AuditInput)
    (eid : String) (hS : sIn.entityId = eid) (hO : oIn.entityId = eid)
    (hnone : lastEventFor st eid = none)
    (t1h t1c t2h t2c : String) (r1 r2 : Nat) :
    (appendedRow st sIn t1h t1c r1).prevEventHash = genesisHash
    ∧ (appendedRow (createAuditLog st sIn t1h t1c r1) oIn t2h t2c r2).prevEventHash
        = (appendedRow st sIn t1h t1c r1).eventHash := by
  have hfil := filter_eq_nil_of_lastEventFor_none st eid hnone
  have hrowid : (appendedRow st sIn t1h t1c r1).entityId = eid := by
    simp [appendedRow, hS]
  have h2 : lastEventFor (createAuditLog st sIn t1h t1c r1) eid
      = some (appendedRow st sIn t1h t1c r1) := by
    unfold lastEventFor createAuditLog
    rw [List.filter_append, hfil]
    simp [hrowid, pickLaterEvent]
  constructor
  · simp [appendedRow, hS, hnone]
  · simp [appendedRow, hO, h2]

/-- C10 witness: concretely, an OTP_VERIFIED event recorded with
entityType=OTP and entityId "S1" is chained onto the SIGNER-entity INVITED
event of the same id. -/
theorem claim_C10_witness :
    lastEventFor [] "S1" = none
    ∧ ((appendedRow [] c10SignerIn "2025-01-01T10:00:00.000Z"
          "2025-01-01T10:00:00.000Z" 1).prevEventHash = genesisHash
      ∧ (appendedRow (createAuditLog [] c10SignerIn "2025-01-01T10:00:00.000Z"
            "2025-01-01T10:00:00.000Z" 1) c10OtpIn "2025-01-01T10:00:02.000Z"
            "2025-01-01T10:00:02.000Z" 2).prevEventHash
          = (appendedRow [] c10SignerIn "2025-01-01T10:00:00.000Z"
              "2025-01-01T10:00:00.000Z" 1).eventHash) :=
  ⟨rfl, claim_C10_chain_by_entityId [] c10SignerIn c10OtpIn "S1" rfl rfl rfl
    "2025-01-01T10:00:00.000Z" "2025-01-01T10:00:00.000Z"
    "2025-01-01T10:00:02.000Z" "2025-01-01T10:00:02.000Z" 1 2⟩

/-- C3: the claim fails at a concrete input.  With document "D" still READY and
its only signer PENDING, invariant 3 holds; running the PAdES finalization of
part_007 — which forces the document status to SIGNED without inspecting any
signer — produces a SIGNED document whose signer is still PENDING. -/
theorem claim_C3_counterexample :
    signedInvariant c3State
    ∧ (finalizeWithPades c3State pdfBytes).doc.status = "SIGNED"
    ∧ ¬ signedInvariant (finalizeWithPades c3State pdfBytes) := by
  refine ⟨fun h => absurd h (by decide), rfl, fun h => ?_⟩
  have hmem : c3Signer ∈ (finalizeWithPades c3State pdfBytes).signers := by
    exact List.mem_singleton.mpr rfl
  exact absurd (h rfl c3Signer hmem rfl) (by decide)

/-- The signer-SIGNED marking of the commit, followed by the all-signed check,
preserves invariant 3. -/
theorem commit_preserves_signedInvariant (st : SignCommitState)
    (signerId timestampISO clientFingerprint nowIso : String)
    (stampedPdf : List Nat) (hinv : signedInvariant st) :
    signedInvariant
      (commitSignature st signerId timestampISO clientFingerprint nowIso
        stampedPdf).1 := by
  unfold commitSignature
  dsimp only
  split
  next hall =>
    intro _ s hs hdoc
    have hs' : s ∈ commitUpdatedSigners st signerId timestampISO clientFingerprint nowIso := hs
    have hdoc' : s.documentId = st.doc.id := hdoc
    have hmem : s ∈ (commitUpdatedSigners st signerId timestampISO
        clientFingerprint nowIso).filter (fun s => s.documentId == st.doc.id) :=
      List.mem_filter.mpr ⟨hs', by simp [hdoc']⟩
    simpa using List.all_eq_true.mp hall s hmem
  next hall =>
    intro hsig s hs hdoc
    have hs' : s ∈ commitUpdatedSigners st signerId timestampISO clientFingerprint nowIso := hs
    unfold commitUpdatedSigners at hs'
    rcases List.mem_map.mp hs' with ⟨s0, hs0, rfl⟩
    by_cases hid : (s0.id == signerId) = true
    · simp [hid]
    · simp only [Bool.not_eq_true] at hid
      simp only [hid, Bool.false_eq_true, if_false] at hdoc ⊢
      have hsig' : st.doc.status = "SIGNED" := hsig
      have hdoc' : s0.documentId = st.doc.id := hdoc
      exact hinv hsig' s0 hs0 hdoc'

/-- The PAdES finalization yields invariant 3 when it runs in a state where
every signer of the document has already signed. -/
theorem finalize_signedInvariant_of_allSigned (st : SignCommitState)
    (padesPdf : List Nat)
    (hall : ∀ s ∈ st.signers, s.documentId = st.doc.id → s.status = "SIGNED") :
    signedInvariant (finalizeWithPades st padesPdf) := by
  intro _ s hs hdoc
  exact hall s hs hdoc

/-- C3 amended: the last-signer commit preserves invariant 3 (it sets the
document SIGNED only after re-reading the signers and finding every one
SIGNED); the PAdES finalization forces the document status to SIGNED without
inspecting the signers, so it maintains the invariant only when every signer
of the document has already signed. -/
theorem claim_C3_amended (st : SignCommitState)
    (signerId timestampISO clientFingerprint nowIso : String)
    (stampedPdf padesPdf : List Nat) (hinv : signedInvariant st) :
    signedInvariant
      (commitSignature st signerId timestampISO clientFingerprint nowIso
        stampedPdf).1
    ∧ ((∀ s ∈ st.signers, s.documentId = st.doc.id → s.status = "SIGNED") →
        signedInvariant (finalizeWithPades st padesPdf)) :=
  ⟨commit_preserves_signedInvariant st signerId timestampISO clientFingerprint
      nowIso stampedPdf hinv,
   fun hall => finalize_signedInvariant_of_allSigned st padesPdf hall⟩

/-- C3 witness at the concrete READY-document state. -/
theorem claim_C3_witness :
    signedInvariant c3State
    ∧ (signedInvariant
        (commitSignature c3State "S1" "2025-01-01T10:00:00.000Z" "fp"
          "2025-01-01T10:00:00.000Z" pdfBytes).1
      ∧ ((∀ s ∈ c3State.signers, s.documentId = c3State.doc.id →
            s.status = "SIGNED") →
          signedInvariant (finalizeWithPades c3State pdfBytes))) :=
  ⟨fun h => absurd h (by decide),
   claim_C3_amended c3State "S1" "2025-01-01T10:00:00.000Z" "fp"
     "2025-01-01T10:00:00.000Z" pdfBytes pdfBytes (fun h => absurd h (by decide))⟩

/-- C4: the claim fails for a two-channel signer.  `startOtpVerification`
stores one `OtpCode` row per channel, all sharing the code hash; a successful
verify destroys only the row it matched, so the very same 6-digit code is
accepted a second time through the remaining row. -/
theorem claim_C4_counterexample :
    (verifyOtp c4Signer c4Otps "424242" 2000 "T" none none).1 = .verified
    ∧ (verifyOtp c4Signer
        (verifyOtp c4Signer c4Otps "424242" 2000 "T" none none).2.1
        "424242" 3000 "T" none none).1 = .verified := by
  decide

/-- C4 amended: when a single `OtpCode` row matches the signer (the one-channel
case), a successful verify consumes it and resubmitting the same code fails
with the expired/not-found error, appends OTP_FAILED, and leaves the OtpCode
table unchanged. -/
theorem claim_C4_amended (signer : SignerRow) (otps : List OtpCodeRow)
    (code : String) (n1 n2 : Nat) (tenant tenant2 : String)
    (ip ua ip2 ua2 : Option String)
    (hone : (otps.filter (matchesSignerOtp signer)).length ≤ 1)
    (hver : (verifyOtp signer otps code n1 tenant ip ua).1 = .verified) :
    verifyOtp signer (verifyOtp signer otps code n1 tenant ip ua).2.1 code n2
        tenant2 ip2 ua2
      = (.expiredOrNotFound, (verifyOtp signer otps code n1 tenant ip ua).2.1,
         [otpFailedEntry tenant2 signer ip2 ua2 "Expired or Not Found"]) := by
  cases hm : otps.filter (matchesSignerOtp signer) with
  | nil =>
    unfold verifyOtp at hver
    rw [hm] at hver
    simp at hver
  | cons r rest =>
    cases rest with
    | cons r2 rest2 =>
      rw [hm] at hone
      simp at hone
    | nil =>
      have hrec : (otps.filter (matchesSignerOtp signer)).foldl pickLaterOtp none
          = some r := by rw [hm]; rfl
      have hfst : verifyOtp signer otps code n1 tenant ip ua
          = (.verified, otps.filter (fun x => x.rowId != r.rowId),
             [otpVerifiedEntry tenant signer ip ua]) := by
        unfold verifyOtp at hver ⊢
        rw [hrec] at hver ⊢
        dsimp only at hver ⊢
        by_cases hc1 : r.expiresAtMs < n1
        · rw [if_pos hc1] at hver
          simp at hver
        · rw [if_neg hc1] at hver ⊢
          by_cases hc2 : (!(bcryptCompare code r.codeHash)) = true
          · rw [if_pos hc2] at hver
            simp at hver
          · rw [if_neg hc2]
      have hm2 : ((otps.filter (fun x => x.rowId != r.rowId)).filter
          (matchesSignerOtp signer)) = [] := by
        rw [List.filter_comm, hm]
        simp
      rw [hfst]
      unfold verifyOtp
      rw [hm2]
      rfl

/-- C4 witness: the one-channel signer.  Verification of 424242 succeeds once;
the replay fails with the expired/not-found error and one OTP_FAILED entry. -/
theorem claim_C4_witness :
    (c4SoloOtps.filter (matchesSignerOtp c4SoloSigner)).length ≤ 1
    ∧ (verifyOtp c4SoloSigner c4SoloOtps "424242" 2000 "T" none none).1 = .verified
    ∧ verifyOtp c4SoloSigner
        (verifyOtp c4SoloSigner c4SoloOtps "424242" 2000 "T" none none).2.1
        "424242" 3000 "T2" none none
      = (.expiredOrNotFound,
         (verifyOtp c4SoloSigner c4SoloOtps "424242" 2000 "T" none none).2.1,
         [otpFailedEntry "T2" c4SoloSigner none none "Expired or Not Found"]) :=
  ⟨by decide, by decide,
   claim_C4_amended c4SoloSigner c4SoloOtps "424242" 2000 3000 "T" "T2"
     none none none none (by decide) (by decide)⟩

/-- The bcrypt tag is injective: equal stored hashes come from equal inputs. -/
theorem bcryptHash_inj (a b : String) (h : bcryptHash a = bcryptHash b) :
    a = b := by
  cases a with
  | mk d1 =>
    cases b with
    | mk d2 =>
      unfold bcryptHash at h
      have hdata := congrArg String.data h
      simp only [String.data_append] at hdata
      exact congrArg String.mk (List.append_cancel_left hdata)

/-- C5: the claim fails at a concrete input.  A refresh executed in the same
second as the presented credential's iat re-mints a byte-identical refresh
JWT (`jwt.sign` is deterministic); `saveSession` stores that token's hash, so
the freshly stored session matches the old raw credential again and a second
refresh with the very same credential succeeds instead of failing with
ErrSessionInvalid. -/
theorem claim_C5_counterexample :
    c5ReplayPair.refresh = c5Token
    ∧ handleRefreshToken c5Db c5Token 0 2 = .ok c5ReplayPair c5ReplayDb2
    ∧ handleRefreshToken c5ReplayDb2 c5Token 5 3 ≠ .invalid := by
  decide

/-- C5 amended: the refresh operation consumes its credential.  If a refresh
with credential `t` succeeds, the sessions table holds at most one row whose
hash matches `t`, and the freshly minted refresh credential differs from `t`
(its embedded issue instant is a later second — the rotation did not happen
within the second of the old token's iat), then the matching Session row has
been deleted from the resulting table, and a second refresh with the same `t`
fails with the session-invalid error. -/
theorem claim_C5_refresh_single_use (db : AuthDb) (t : RefreshToken)
    (n1 n2 rid1 rid2 : Nat) (pair : TokenPair) (db2 : AuthDb)
    (h1 : handleRefreshToken db t n1 rid1 = .ok pair db2)
    (huniq : ∀ s1 ∈ db.sessions, ∀ s2 ∈ db.sessions,
        bcryptCompare (encodeRefreshToken t) s1.refreshTokenHash = true →
        bcryptCompare (encodeRefreshToken t) s2.refreshTokenHash = true → s1 = s2)
    (hfresh : encodeRefreshToken pair.refresh ≠ encodeRefreshToken t) :
    (∃ srec ∈ db.sessions,
        bcryptCompare (encodeRefreshToken t) srec.refreshTokenHash = true
        ∧ srec ∉ db2.sessions)
    ∧ handleRefreshToken db2 t n2 rid2 = .invalid := by
  unfold handleRefreshToken at h1
  dsimp only at h1
  split at h1
  next => cases h1
  next =>
    split at h1
    next => cases h1
    next =>
      split at h1
      next => cases h1
      next srec hfind =>
        split at h1
        next => cases h1
        next user huser =>
          injection h1 with hpair hdb2
          have hp0 := List.find?_some hfind
          have hp : bcryptCompare (encodeRefreshToken t) srec.refreshTokenHash
              = true := hp0
          have hmem : srec ∈ db.sessions :=
            List.mem_of_mem_filter (List.mem_of_find?_eq_some hfind)
          have hsessions : db2.sessions
              = db.sessions.filter (fun s => s.rowId != srec.rowId)
                ++ [{ rowId := rid1, userId := user.id,
                      refreshTokenHash :=
                          bcryptHash (encodeRefreshToken pair.refresh),
                      expiresAtMs := n1 + refreshLifetimeMs }] := by
            rw [← hdb2, ← hpair]
          have hnewNoMatch : ∀ s : SessionRow,
              s.refreshTokenHash = bcryptHash (encodeRefreshToken pair.refresh) →
              bcryptCompare (encodeRefreshToken t) s.refreshTokenHash = false := by
            intro s hsh
            rw [bcryptCompare, hsh]
            by_contra hcon
            simp only [Bool.not_eq_false, beq_iff_eq] at hcon
            exact hfresh (bcryptHash_inj _ _ hcon)
          have hgone : ∀ s ∈ db2.sessions,
              bcryptCompare (encodeRefreshToken t) s.refreshTokenHash = false := by
            intro s hsmem
            rw [hsessions] at hsmem
            rcases List.mem_append.mp hsmem with hleft | hright
            · rcases List.mem_filter.mp hleft with ⟨hsdb, hsid⟩
              by_contra hcon
              simp only [Bool.not_eq_false] at hcon
              have := huniq s hsdb srec hmem hcon hp
              subst this
              simp at hsid
            · have : s = { rowId := rid1, userId := user.id,
                           refreshTokenHash :=
                               bcryptHash (encodeRefreshToken pair.refresh),
                           expiresAtMs := n1 + refreshLifetimeMs } := by
                simpa using hright
              exact hnewNoMatch s (by rw [this])
          constructor
          · refine ⟨srec, hmem, hp, fun hcon => ?_⟩
            have := hgone srec hcon
            rw [hp] at this
            cases this
          · unfold handleRefreshToken
            dsimp only
            split
            next => rfl
            next =>
              split
              next => rfl
              next =>
                have hnone : (db2.sessions.filter
                    (fun s => s.userId == t.userId)).find? (fun s =>
                      bcryptCompare (encodeRefreshToken t) s.refreshTokenHash)
                    = none := by
                  rw [List.find?_eq_none]
                  intro s hs
                  have := hgone s (List.mem_of_mem_filter hs)
                  simp [this]
                rw [hnone]

/-- C5 witness: a database with one user and one session holding the hash of
credential `c5Token`; the refresh succeeds once and the replay fails. -/
theorem claim_C5_witness :
    handleRefreshToken c5Db c5Token 1000 2 = .ok c5Pair c5Db2
    ∧ ((∃ srec ∈ c5Db.sessions,
          bcryptCompare (encodeRefreshToken c5Token) srec.refreshTokenHash = true
          ∧ srec ∉ c5Db2.sessions)
      ∧ handleRefreshToken c5Db2 c5Token 5000 3 = .invalid) :=
  ⟨by decide,
   claim_C5_refresh_single_use c5Db c5Token 1000 5000 2 3 c5Pair c5Db2
     (by decide) (by decide) (by decide)⟩

/-- C6: the claim fails at member invite.  A tenant on the free plan (price 0)
whose subscriptionStatus is OVERDUE uploads documents freely — the upload gate
applies the subscription block only to paid plans — but `inviteMember` rejects
it with the subscription-irregular error: its check has no plan-price
condition. -/
theorem claim_C6_counterexample :
    createDocumentUploadGate (some c6Tenant) 0 = .proceed
    ∧ inviteMemberGate (some c6Tenant) 1 0 true false = .subscriptionIrregular := by
  decide

/-- C6 amended: at document upload the subscription-irregular rejection fires
exactly when the plan is paid (price > 0) and the status is OVERDUE or
CANCELED; at member invite it fires exactly when the status is OVERDUE or
CANCELED, regardless of the plan price. -/
theorem claim_C6_amended (t : TenantRow) (p : PlanRow) (hp : t.plan = some p)
    (docCount activeUsers members : Nat)
    (emailRegistered activeMember : Bool) :
    (createDocumentUploadGate (some t) docCount = .subscriptionIrregular
      ↔ (0 < p.price ∧ subscriptionIrregular t.subscriptionStatus = true))
    ∧ (inviteMemberGate (some t) activeUsers members emailRegistered activeMember
          = .subscriptionIrregular
      ↔ subscriptionIrregular t.subscriptionStatus = true) := by
  constructor
  · unfold createDocumentUploadGate
    dsimp only
    rw [hp]
    dsimp only
    constructor
    · intro h
      by_cases hc : (decide (0 < p.price)
          && subscriptionIrregular t.subscriptionStatus) = true
      · simpa [Bool.and_eq_true, decide_eq_true_eq] using hc
      · rw [if_neg hc] at h
        split at h <;> simp at h
    · intro hcond
      rw [if_pos (show (decide (0 < p.price)
          && subscriptionIrregular t.subscriptionStatus) = true by
        simp [Bool.and_eq_true, decide_eq_true_eq, hcond.1, hcond.2])]
  · unfold inviteMemberGate
    dsimp only
    constructor
    · intro h
      by_cases hirr : subscriptionIrregular t.subscriptionStatus = true
      · exact hirr
      · rw [if_neg hirr] at h
        split at h
        · simp at h
        · split at h
          · simp at h
          · split at h <;> simp at h
    · intro hirr
      rw [if_pos hirr]

/-- C6 witness at the concrete free-plan OVERDUE tenant. -/
theorem claim_C6_witness :
    c6Tenant.plan = some gratuitoPlan
    ∧ ((createDocumentUploadGate (some c6Tenant) 0 = .subscriptionIrregular
        ↔ (0 < gratuitoPlan.price
           ∧ subscriptionIrregular c6Tenant.subscriptionStatus = true))
      ∧ (inviteMemberGate (some c6Tenant) 1 0 true false = .subscriptionIrregular
        ↔ subscriptionIrregular c6Tenant.subscriptionStatus = true)) :=
  ⟨rfl, claim_C6_amended c6Tenant gratuitoPlan rfl 0 1 0 true false⟩

/-- C7: the claim fails on role resolution.  Refreshing a credential that
carries tenant "T2" for a user whose only membership row there is PENDING
yields role MANAGER — the code looks the TenantMember row up with no status
condition — whereas the claimed §4.5 resolution (ACTIVE member only) grants
no role at all. -/
theorem claim_C7_counterexample :
    refreshAccessRole (handleRefreshToken c7Db c7Token 1000 2) = some "MANAGER"
    ∧ refreshAccessTenant (handleRefreshToken c7Db c7Token 1000 2) = some "T2"
    ∧ roleClaimedBySpec c7User c7Db.members "T2" = none
    ∧ c7Member.status = "PENDING" := by
  decide

/-- C7 amended: a successful refresh whose old credential carries a tenantId
different from the personal one reissues both credentials for exactly that
tenant, and resolves the role from the TenantMember row for (user, tenant)
regardless of its status — USER when no row exists. -/
theorem claim_C7_amended (db : AuthDb) (t : RefreshToken) (n rid : Nat)
    (pair : TokenPair) (db2 : AuthDb) (user : UserRow) (T : String)
    (h : handleRefreshToken db t n rid = .ok pair db2)
    (hu : db.users.find? (fun u => u.id == t.userId) = some user)
    (ht : t.tenantId = some T) (hne : T ≠ user.tenantId) :
    pair.accessTenantId = T ∧ pair.refresh.tenantId = some T
    ∧ pair.accessRole = (match db.members.find? (fun m =>
        m.userId == some user.id && m.tenantId == T) with
      | some m => m.role
      | none => "USER") := by
  unfold handleRefreshToken at h
  dsimp only at h
  split at h
  next => cases h
  next =>
    split at h
    next => cases h
    next =>
      split at h
      next => cases h
      next srec hfind =>
        split at h
        next => cases h
        next user0 huser0 =>
          rw [hu] at huser0
          injection huser0 with huu
          subst huu
          rw [ht] at h
          dsimp only at h
          have hbeq : (T == user.tenantId) = false := by
            simpa using hne
          rw [hbeq] at h
          simp only [Bool.false_eq_true, if_false] at h
          injection h with hpair hdb2
          rw [← hpair]
          exact ⟨rfl, rfl, rfl⟩

/-- C7 witness at the concrete PENDING-membership database. -/
theorem claim_C7_witness :
    handleRefreshToken c7Db c7Token 1000 2 = .ok c7Pair c7Db2
    ∧ c7Db.users.find? (fun u => u.id == c7Token.userId) = some c7User
    ∧ c7Token.tenantId = some "T2"
    ∧ (c7Pair.accessTenantId = "T2" ∧ c7Pair.refresh.tenantId = some "T2"
      ∧ c7Pair.accessRole = (match c7Db.members.find? (fun m =>
          m.userId == some c7User.id && m.tenantId == "T2") with
        | some m => m.role
        | none => "USER")) :=
  ⟨by decide, by decide, rfl,
   claim_C7_amended c7Db c7Token 1000 2 c7Pair c7Db2 c7User "T2"
     (by decide) (by decide) rfl (by decide)⟩

/-- C8: the claim fails when two documents carry the same content hash
(`Document.sha256` has no uniqueness constraint — for example the final PDF
re-uploaded as a fresh document).  With a READY row ahead of the SIGNED row in
table order, `validatePdfIntegrity` answers NOT_SIGNED although a SIGNED
document with that hash exists. -/
theorem claim_C8_counterexample :
    validatePdfIntegrity c8Docs [] [] pdfBytes
      = .invalid (sha256Hex pdfBytes) "NOT_SIGNED"
    ∧ ∃ d ∈ c8Docs, d.sha256 = some (sha256Hex pdfBytes)
        ∧ d.status = "SIGNED" := by
  exact ⟨by decide, ⟨c8DocSigned, by decide, rfl, rfl⟩⟩

/-- C8 amended: when at most one Document row carries the computed hash,
`validatePdfIntegrity` answers valid exactly when a row with that hash and
status SIGNED exists, NOT_FOUND exactly when no row carries the hash, and
NOT_SIGNED when rows carry the hash but none of them is SIGNED; the hash
reported is always the one computed from the received bytes, and the
function reads rows without writing any. -/
theorem claim_C8_amended (docs : List DocumentRow) (users : List UserRow)
    (signers : List SignerRow) (buf : List Nat)
    (huniq : (docs.filter
        (fun d => d.sha256 == some (sha256Hex buf))).length ≤ 1) :
    ((∃ d ∈ docs, d.sha256 = some (sha256Hex buf) ∧ d.status = "SIGNED") ↔
      ∃ vd, validatePdfIntegrity docs users signers buf
        = .valid (sha256Hex buf) vd)
    ∧ ((∀ d ∈ docs, ¬ d.sha256 = some (sha256Hex buf)) →
        validatePdfIntegrity docs users signers buf
          = .invalid (sha256Hex buf) "NOT_FOUND")
    ∧ (((∃ d ∈ docs, d.sha256 = some (sha256Hex buf))
        ∧ ∀ d ∈ docs, d.sha256 = some (sha256Hex buf) → d.status ≠ "SIGNED") →
        validatePdfIntegrity docs users signers buf
          = .invalid (sha256Hex buf) "NOT_SIGNED") := by
  cases hm : docs.filter (fun d => d.sha256 == some (sha256Hex buf)) with
  | nil =>
    have hnomatch : ∀ d ∈ docs, ¬ d.sha256 = some (sha256Hex buf) := by
      intro d hd hcon
      have : d ∈ docs.filter (fun d => d.sha256 == some (sha256Hex buf)) :=
        List.mem_filter.mpr ⟨hd, by simp [hcon]⟩
      rw [hm] at this
      cases this
    have hval : validatePdfIntegrity docs users signers buf
        = .invalid (sha256Hex buf) "NOT_FOUND" := by
      unfold validatePdfIntegrity
      dsimp only
      rw [hm]
      rfl
    refine ⟨?_, fun _ => hval, ?_⟩
    · constructor
      · rintro ⟨d, hd, hsha, _⟩
        exact absurd hsha (hnomatch d hd)
      · rintro ⟨vd, hvd⟩
        rw [hval] at hvd
        cases hvd
    · rintro ⟨⟨d, hd, hsha⟩, _⟩
      exact absurd hsha (hnomatch d hd)
  | cons d0 rest =>
    cases rest with
    | cons d1 rest2 =>
      rw [hm] at huniq
      simp at huniq
    | nil =>
      have hd0 : d0 ∈ docs ∧ d0.sha256 = some (sha256Hex buf) := by
        have : d0 ∈ docs.filter (fun d => d.sha256 == some (sha256Hex buf)) := by
          rw [hm]; exact List.mem_singleton.mpr rfl
        rcases List.mem_filter.mp this with ⟨h1, h2⟩
        exact ⟨h1, by simpa using h2⟩
      have honly : ∀ d ∈ docs, d.sha256 = some (sha256Hex buf) → d = d0 := by
        intro d hd hsha
        have : d ∈ docs.filter (fun d => d.sha256 == some (sha256Hex buf)) :=
          List.mem_filter.mpr ⟨hd, by simp [hsha]⟩
        rw [hm] at this
        simpa using this
      have hhead : (docs.filter
          (fun d => d.sha256 == some (sha256Hex buf))).head? = some d0 := by
        rw [hm]; rfl
      refine ⟨?_, ?_, ?_⟩
      · constructor
        · rintro ⟨d, hd, hsha, hst⟩
          have hdd0 := honly d hd hsha
          subst hdd0
          refine ⟨{ title := d.title, signedAt := d.updatedAt,
                    ownerName := (match users.find? (fun u => u.id == d.ownerId) with
                      | some u => u.name
                      | none => ""),
                    signers := signers.filter (fun s => s.documentId == d.id) }, ?_⟩
          unfold validatePdfIntegrity
          dsimp only
          rw [hhead]
          dsimp only
          rw [if_neg (by simp [hst])]
        · rintro ⟨vd, hvd⟩
          unfold validatePdfIntegrity at hvd
          dsimp only at hvd
          rw [hhead] at hvd
          dsimp only at hvd
          by_cases hst : (d0.status != "SIGNED") = true
          · rw [if_pos hst] at hvd
            cases hvd
          · exact ⟨d0, hd0.1, hd0.2, by simpa using hst⟩
      · intro hnone
        exact absurd hd0.2 (hnone d0 hd0.1)
      · rintro ⟨_, hall⟩
        have hst := hall d0 hd0.1 hd0.2
        unfold validatePdfIntegrity
        dsimp only
        rw [hhead]
        dsimp only
        rw [if_pos (by simpa using hst)]

/-- C8 witness: a table holding a single SIGNED document with the computed
hash validates; the hypotheses of the amended claim hold there. -/
theorem claim_C8_witness :
    ([c8DocSigned].filter
        (fun d => d.sha256 == some (sha256Hex pdfBytes))).length ≤ 1
    ∧ (((∃ d ∈ [c8DocSigned], d.sha256 = some (sha256Hex pdfBytes)
          ∧ d.status = "SIGNED") ↔
        ∃ vd, validatePdfIntegrity [c8DocSigned] [] [] pdfBytes
          = .valid (sha256Hex pdfBytes) vd)
      ∧ ((∀ d ∈ [c8DocSigned], ¬ d.sha256 = some (sha256Hex pdfBytes)) →
          validatePdfIntegrity [c8DocSigned] [] [] pdfBytes
            = .invalid (sha256Hex pdfBytes) "NOT_FOUND")
      ∧ (((∃ d ∈ [c8DocSigned], d.sha256 = some (sha256Hex pdfBytes))
          ∧ ∀ d ∈ [c8DocSigned], d.sha256 = some (sha256Hex pdfBytes) →
              d.status ≠ "SIGNED") →
          validatePdfIntegrity [c8DocSigned] [] [] pdfBytes
            = .invalid (sha256Hex pdfBytes) "NOT_SIGNED")) :=
  ⟨by decide, claim_C8_amended [c8DocSigned] [] [] pdfBytes (by decide)⟩

/-- Fiber count of the part_013 mint: reduce the filtered range to an image of
consecutive multiples. -/
theorem sixDigitFiberCard_eq (t K : Nat) (ht : t < 900000)
    (hK : ∀ q : Nat, q * 900000 + t < 4294967296 ↔ q < K) :
    sixDigitFiberCard (t + 100000) = K := by
  unfold sixDigitFiberCard
  have himg : (Finset.range 4294967296).filter
        (fun b => sixDigitOtpValue b = t + 100000)
      = (Finset.range K).image (fun q => q * 900000 + t) := by
    ext b
    simp only [Finset.mem_filter, Finset.mem_range, Finset.mem_image,
      sixDigitOtpValue]
    constructor
    · rintro ⟨hb, hv⟩
      exact ⟨b / 900000, (hK _).mp (by omega), by omega⟩
    · rintro ⟨q, hq, rfl⟩
      have hlt := (hK q).mpr hq
      refine ⟨by omega, ?_⟩
      rw [Nat.mod_eq_of_lt hlt, Nat.mul_comm q 900000, Nat.mul_add_mod,
        Nat.mod_eq_of_lt ht]
  rw [himg, Finset.card_image_of_injective _ (fun a b hab => by omega),
    Finset.card_range]

/-- C9: the claim fails twice.  The mint used by signer OTP start and password
reset is `crypto.randomInt(100000, 999999)`, whose upper bound is exclusive:
the value 999999 is impossible.  And part_013's `generateSixDigitOtp` is not
uniform: of the 2^32 equally likely draws, 4773 produce the value 100000 while
only 4772 produce 999999 (2^32 is not a multiple of 900000). -/
theorem claim_C9_counterexample :
    (¬ ∃ r : Fin 899999, signingOtpValue r = 999999)
    ∧ sixDigitFiberCard 100000 = 4773
    ∧ sixDigitFiberCard 999999 = 4772 := by
  refine ⟨?_, ?_, ?_⟩
  · rintro ⟨r, hr⟩
    have hlt := r.isLt
    unfold signingOtpValue at hr
    omega
  · have h := sixDigitFiberCard_eq 0 4773 (by omega) (fun q => by omega)
    simpa using h
  · have h := sixDigitFiberCard_eq 899999 4772 (by omega) (fun q => by omega)
    simpa using h

/-- C9 amended: the randomInt-based mint takes every value of [100000, 999998]
and only those, one random draw per value (uniform); `generateSixDigitOtp`
takes every value of [100000, 999999] and only those (with the modulo bias
quantified in the counterexample). -/
theorem claim_C9_amended :
    (∀ r : Fin 899999,
        100000 ≤ signingOtpValue r ∧ signingOtpValue r ≤ 999998)
    ∧ (∀ v : Nat, 100000 ≤ v → v ≤ 999998 →
        ∃ r : Fin 899999, signingOtpValue r = v)
    ∧ Function.Injective signingOtpValue
    ∧ (∀ b : Nat, 100000 ≤ sixDigitOtpValue b ∧ sixDigitOtpValue b ≤ 999999)
    ∧ (∀ v : Nat, 100000 ≤ v → v ≤ 999999 →
        ∃ b : Nat, sixDigitOtpValue b = v) := by
  refine ⟨?_, ?_, ?_, ?_, ?_⟩
  · intro r
    have := r.isLt
    unfold signingOtpValue
    omega
  · intro v h1 h2
    refine ⟨⟨v - 100000, by omega⟩, ?_⟩
    unfold signingOtpValue
    simp only [Fin.val_mk]
    omega
  · intro a b hab
    unfold signingOtpValue at hab
    exact Fin.ext (by omega)
  · intro b
    unfold sixDigitOtpValue
    omega
  · intro v h1 h2
    refine ⟨v - 100000, ?_⟩
    unfold sixDigitOtpValue
    omega

/-- C9 witness: a draw hitting 424242 stays within [100000, 999998]; 999999
is attainable for `generateSixDigitOtp`. -/
theorem claim_C9_witness :
    (100000 ≤ signingOtpValue ⟨324242, by decide⟩
      ∧ signingOtpValue ⟨324242, by decide⟩ ≤ 999998)
    ∧ (100000 ≤ 999999 ∧ (999999 : Nat) ≤ 999999
      ∧ ∃ b : Nat, sixDigitOtpValue b = 999999) :=
  ⟨claim_C9_amended.1 ⟨324242, by decide⟩,
   by decide, by decide,
   claim_C9_amended.2.2.2.2 999999 (by decide) (by decide)⟩

end DocuLink
